import Mathlib

/-!
Verification development for the wayvnc screencopy interface
(src/screencopy-interface.c and the two ext-screencopy backend variants).

The C code is embedded shallowly: the session struct becomes a Lean
structure, every protocol callback and API function becomes a Lean
function from state to state, and all externally visible actions
(buffer-pool acquire/release, protocol requests, the completion
callback) are recorded in an explicit event trace.  C assertions and
NULL-pointer dereferences are modelled by returning `none`: a run that
would trip an assert is an aborted run.

External collaborators are modelled minimally:
- the buffer pool hands out buffers with fresh numeric ids
  (`pool_next`), with an empty accumulated damage region;
- wayland proxy creation is modelled by an `Env` of booleans saying
  whether each creation request yields a non-NULL proxy;
- the compile-time flag ENABLE_SCREENCOPY_DMABUF is taken as enabled,
  so the dmabuf branch of constraints_done is present and guarded by
  the run-time flags exactly as in the source.
-/

namespace Screencopy

/-- Buffer capture domain, mirroring WV_BUFFER_DOMAIN_OUTPUT /
WV_BUFFER_DOMAIN_CURSOR from buffer.h. -/
inductive BufferDomain
  | output
  | cursor
deriving Repr, DecidableEq

/-- Negotiated buffer type, mirroring WV_BUFFER_UNSPEC / WV_BUFFER_SHM /
WV_BUFFER_DMABUF. -/
inductive BufferType
  | unspec
  | shm
  | dmabuf
deriving Repr, DecidableEq

/-- Result passed to the completion callback: SCREENCOPY_DONE /
SCREENCOPY_FAILED. -/
inductive CopyResult
  | done
  | failed
deriving Repr, DecidableEq

/-- A damage rectangle (x, y, width, height). -/
structure Rect where
  x : Int
  y : Int
  w : Int
  h : Int
deriving Repr, DecidableEq

/-- A buffer handed out by the external wv_buffer_pool.  Identified by a
numeric id; carries the fields of struct wv_buffer that this layer
touches: the capture domain tag, the accumulated requested-damage
region (buffer_damage) and the transform stamped onto the framebuffer
metadata. -/
structure WvBuffer where
  id : Nat
  domain : BufferDomain
  buffer_damage : List Rect
  transform : Option Nat
deriving Repr, DecidableEq

/-- Externally visible actions performed by the session code, in
program order. -/
inductive Ev
  /-- wv_buffer_pool_acquire returned the buffer with this id. -/
  | poolAcquire (id : Nat)
  /-- ext_screencopy_session_v1_create_frame. -/
  | frameCreated
  /-- attach_buffer request carrying the wl_buffer of this wv_buffer. -/
  | attachBuffer (id : Nat)
  /-- damage_buffer rectangle hint sent to the compositor. -/
  | damageBuffer (r : Rect)
  /-- ext_screencopy_frame_v1_capture (frame dialect; takes no flags). -/
  | capture
  /-- session commit (session dialect); onDamage is true when the
  ON_DAMAGE flag was set, i.e. when immediate was false. -/
  | commit (onDamage : Bool)
  /-- the nvnc_log debug line in schedule_capture, recording the
  immediate argument and the committed buffer. -/
  | logCommit (immediate : Bool) (id : Nat)
  /-- ext_screencopy_frame_v1_destroy. -/
  | frameDestroyed
  /-- ext_screencopy_session_v1_destroy. -/
  | sessionDestroyed
  /-- image-source creation request. -/
  | sourceCreated
  /-- ext_image_source_v1_destroy. -/
  | sourceDestroyed
  /-- capture-session creation request succeeded. -/
  | sessionCreated
  /-- cursor-session creation request succeeded. -/
  | cursorSessionCreated
  /-- wv_buffer_pool_resize with the negotiated parameters. -/
  | poolResize (t : BufferType) (w h stride fmt : Nat)
  /-- wv_buffer_registry_damage_all on the frame_damage region of this
  buffer, for the given domain. -/
  | registryDamageAll (id : Nat) (d : BufferDomain)
  /-- wv_buffer_pool_release of this buffer. -/
  | poolRelease (b : WvBuffer)
  /-- the completion callback parent.on_done. -/
  | onDone (res : CopyResult) (b : Option WvBuffer)
deriving Repr, DecidableEq

/-- Environment oracle: whether each wayland proxy-creation request
returns a non-NULL proxy. -/
structure Env where
  source_ok : Bool
  session_ok : Bool
  cursor_ok : Bool
deriving Repr, DecidableEq

/-- Environment in which every protocol object creation succeeds. -/
def envAllOk : Env := ⟨true, true, true⟩

end Screencopy

namespace ExtFrame

open Screencopy

/-- State of struct ext_screencopy in the frame-based dialect (the
variant whose schedule_capture creates an ext_screencopy_frame_v1 per
capture).  Proxy pointers are modelled as booleans (present or NULL);
the in-flight buffer is an optional WvBuffer; pool_next is the id the
pool will give to the next acquired buffer. -/
structure St where
  session : Bool
  frame : Bool
  buffer : Option WvBuffer
  pool_next : Nat
  render_cursors : Bool
  capture_cursor : Bool
  have_buffer_info : Bool
  should_start : Bool
  shall_be_immediate : Bool
  enable_linux_dmabuf : Bool
  width : Nat
  height : Nat
  wl_shm_stride : Nat
  wl_shm_format : Nat
  have_wl_shm : Bool
  have_linux_dmabuf : Bool
  dmabuf_format : Nat
deriving Repr, DecidableEq

/-- Failure reasons of ext_screencopy_frame_v1. -/
inductive FailureReason
  | unknown
  | bufferConstraints
  | stopped
deriving Repr, DecidableEq

/-- ext_screencopy_init_session (frame dialect): destroy the old frame
and session proxies if present, then create an output image source and
a new capture session.  In this dialect the capture_cursor branch is an
empty TODO in the source, so no cursor object is created.  Returns the
C return code, the new state and the emitted actions. -/
def ext_screencopy_init_session (env : Env) (s : St) :
    Int × St × List Ev :=
  let evs₁ := if s.frame then [Ev.frameDestroyed] else []
  let evs₂ := if s.session then [Ev.sessionDestroyed] else []
  let s₁ : St := { s with frame := false, session := false }
  if env.source_ok = false then
    (-1, s₁, evs₁ ++ evs₂)
  else if env.session_ok = false then
    (-1, s₁, evs₁ ++ evs₂ ++ [Ev.sourceCreated, Ev.sourceDestroyed])
  else
    (0, { s₁ with session := true },
      evs₁ ++ evs₂ ++ [Ev.sourceCreated, Ev.sessionCreated, Ev.sourceDestroyed])

/-- ext_screencopy_schedule_capture (frame dialect): assert(!frame),
acquire a buffer from the pool, tag its domain, create a frame, attach
the buffer, send one damage_buffer hint per rectangle of the acquired
buffer accumulated damage, then capture.  Returns none when the
assert(!self->frame) fires, or when session is NULL (the create_frame
request would dereference a NULL proxy). -/
def ext_screencopy_schedule_capture (s : St) (immediate : Bool) :
    Option (St × List Ev) :=
  if s.frame then none
  else if s.session = false then none
  else
    let buf : WvBuffer :=
      { id := s.pool_next
        domain := if s.capture_cursor then .cursor else .output
        buffer_damage := []
        transform := none }
    some ({ s with
        buffer := some buf
        frame := true
        pool_next := s.pool_next + 1 },
      [Ev.poolAcquire buf.id, Ev.frameCreated, Ev.attachBuffer buf.id]
        ++ buf.buffer_damage.map Ev.damageBuffer
        ++ [Ev.capture, Ev.logCommit immediate buf.id])

/-- session_handle_format_shm: record the shared-memory format. -/
def session_handle_format_shm (s : St) (format : Nat) : St :=
  { s with have_wl_shm := true, wl_shm_format := format }

/-- session_handle_format_drm: record the dmabuf format
(ENABLE_SCREENCOPY_DMABUF taken as enabled). -/
def session_handle_format_drm (s : St) (format : Nat) : St :=
  { s with have_linux_dmabuf := true, dmabuf_format := format }

/-- session_handle_dimensions: record width/height and the fixed
width*4 shared-memory stride (uint32 arithmetic). -/
def session_handle_dimensions (s : St) (width height : Nat) : St :=
  { s with width := width, height := height,
           wl_shm_stride := width * 4 % 2 ^ 32 }

/-- session_handle_constraints_done: choose dmabuf when advertised and
enabled, else shm; resize the pool; if a start was deferred, schedule
it now with the recorded immediate flag and clear both deferral flags;
finally mark buffer info as known. -/
def session_handle_constraints_done (s : St) : Option (St × List Ev) :=
  let p : BufferType × Nat × Nat :=
    if s.have_linux_dmabuf && s.enable_linux_dmabuf then
      (BufferType.dmabuf, 0, s.dmabuf_format)
    else
      (BufferType.shm, s.wl_shm_stride, s.wl_shm_format)
  let resizeEv := Ev.poolResize p.1 s.width s.height p.2.1 p.2.2
  if s.should_start then
    match ext_screencopy_schedule_capture s s.shall_be_immediate with
    | none => none
    | some (s₁, evs) =>
        some ({ s₁ with
            should_start := false
            shall_be_immediate := false
            have_buffer_info := true }, resizeEv :: evs)
  else
    some ({ s with have_buffer_info := true }, [resizeEv])

/-- frame_handle_ready: assert the frame and buffer exist, destroy the
frame, mark full frame damage for every consumer in the capture
domain, clear the buffer requested-damage region, detach the buffer
from the session and deliver it to the completion callback with
result done. -/
def frame_handle_ready (s : St) : Option (St × List Ev) :=
  if s.frame = false then none
  else
    match s.buffer with
    | none => none
    | some b =>
      let domain := if s.capture_cursor then BufferDomain.cursor
        else BufferDomain.output
      some ({ s with frame := false, buffer := none },
        [Ev.frameDestroyed, Ev.registryDamageAll b.id domain,
         Ev.onDone CopyResult.done (some { b with buffer_damage := [] })])

/-- frame_handle_failed: assert the frame and buffer exist, destroy the
frame, release the buffer back to the pool, reinitialize the whole
session when the reason is BUFFER_CONSTRAINTS, then invoke the
completion callback with result failed and no buffer. -/
def frame_handle_failed (env : Env) (s : St) (reason : FailureReason) :
    Option (St × List Ev) :=
  if s.frame = false then none
  else
    match s.buffer with
    | none => none
    | some b =>
      let s₁ : St := { s with frame := false, buffer := none }
      if reason = FailureReason.bufferConstraints then
        let r := ext_screencopy_init_session env s₁
        some (r.2.1, [Ev.frameDestroyed, Ev.poolRelease b] ++ r.2.2
          ++ [Ev.onDone CopyResult.failed none])
      else
        some (s₁, [Ev.frameDestroyed, Ev.poolRelease b,
          Ev.onDone CopyResult.failed none])

/-- frame_handle_damage: wv_buffer_damage_rect on the in-flight buffer
(a NULL buffer would be dereferenced, hence none). -/
def frame_handle_damage (s : St) (x y width height : Int) : Option St :=
  match s.buffer with
  | none => none
  | some b =>
    let b₁ : WvBuffer :=
      { b with buffer_damage := b.buffer_damage ++ [⟨x, y, width, height⟩] }
    some { s with buffer := some b₁ }

/-- frame_handle_transform: assert the buffer exists and stamp the
transform onto its framebuffer metadata. -/
def frame_handle_transform (s : St) (transform : Nat) : Option St :=
  match s.buffer with
  | none => none
  | some b => some { s with buffer := some { b with transform := some transform } }

/-- ext_screencopy_start (frame dialect): when buffer info is not yet
known, record the deferred start and its immediate flag; otherwise
schedule a capture now.  Always returns 0 when it returns. -/
def ext_screencopy_start (s : St) (immediate : Bool) :
    Option (Int × St × List Ev) :=
  if s.have_buffer_info = false then
    some (0, { s with should_start := true, shall_be_immediate := immediate }, [])
  else
    match ext_screencopy_schedule_capture s immediate with
    | none => none
    | some (s₁, evs) => some (0, s₁, evs)

/-- ext_screencopy_stop: performs no protocol action. -/
def ext_screencopy_stop (s : St) : St := s

/-- ext_screencopy_destroy (frame dialect): destroy the frame proxy if
present, then the session proxy if present, then release the in-flight
buffer back to the pool if present, then free the handle. -/
def ext_screencopy_destroy (s : St) : List Ev :=
  (if s.frame then [Ev.frameDestroyed] else [])
    ++ (if s.session then [Ev.sessionDestroyed] else [])
    ++ (match s.buffer with
        | some b => [Ev.poolRelease b]
        | none => [])

/-- State of a freshly created handle: calloc-zeroed fields, pool
created, init_session succeeded (session proxy present). -/
def initState : St :=
  { session := true, frame := false, buffer := none, pool_next := 0,
    render_cursors := false, capture_cursor := false,
    have_buffer_info := false, should_start := false,
    shall_be_immediate := false, enable_linux_dmabuf := false,
    width := 0, height := 0, wl_shm_stride := 0, wl_shm_format := 0,
    have_wl_shm := false, have_linux_dmabuf := false, dmabuf_format := 0 }

/-- One upcall from the event loop or one caller API call. -/
inductive Act
  | start (immediate : Bool)
  | shmFormat (format : Nat)
  | dmabufFormat (format : Nat)
  | bufferSize (width height : Nat)
  | constraintsDone
  | frameDamage (x y w h : Int)
  | frameTransform (t : Nat)
  | frameReady
  | frameFailed (reason : FailureReason)
deriving Repr, DecidableEq

/-- Dispatch one action to the corresponding source function.  none
means an assertion fired or a NULL proxy was dereferenced. -/
def step (env : Env) (s : St) : Act → Option (St × List Ev)
  | .start imm =>
      match ext_screencopy_start s imm with
      | none => none
      | some (_, s₁, evs) => some (s₁, evs)
  | .shmFormat f => some (session_handle_format_shm s f, [])
  | .dmabufFormat f => some (session_handle_format_drm s f, [])
  | .bufferSize w h => some (session_handle_dimensions s w h, [])
  | .constraintsDone => session_handle_constraints_done s
  | .frameDamage x y w h =>
      match frame_handle_damage s x y w h with
      | none => none
      | some s₁ => some (s₁, [])
  | .frameTransform t =>
      match frame_handle_transform s t with
      | none => none
      | some s₁ => some (s₁, [])
  | .frameReady => frame_handle_ready s
  | .frameFailed r => frame_handle_failed env s r

/-- Run a sequence of actions, accumulating the event trace. -/
def run (env : Env) (s : St) : List Act → Option (St × List Ev)
  | [] => some (s, [])
  | a :: rest =>
    match step env s a with
    | none => none
    | some (s₁, evs) =>
      match run env s₁ rest with
      | none => none
      | some (s₂, evs₂) => some (s₂, evs ++ evs₂)

end ExtFrame

namespace ExtSession

open Screencopy

/-- State of struct ext_screencopy in the session-oriented dialect (the
variant that attaches buffers to the long-lived session object and has
no per-capture frame object).  The cursor field models the
ext_screencopy_cursor_session_v1 proxy. -/
structure St where
  session : Bool
  cursor : Bool
  buffer : Option WvBuffer
  pool_next : Nat
  render_cursors : Bool
  capture_cursor : Bool
  have_buffer_info : Bool
  should_start : Bool
  shall_be_immediate : Bool
  enable_linux_dmabuf : Bool
  width : Nat
  height : Nat
  wl_shm_stride : Nat
  wl_shm_format : Nat
  have_wl_shm : Bool
  have_linux_dmabuf : Bool
  dmabuf_format : Nat
deriving Repr, DecidableEq

/-- Failure reasons of ext_screencopy_session_v1 in this dialect; the
discriminating value is INVALID_BUFFER. -/
inductive FailureReason
  | unspec
  | invalidBuffer
  | outputGone
deriving Repr, DecidableEq

/-- ext_screencopy_init_session (session dialect): destroy the old
session proxy if present, create an output image source, then either a
cursor session (from which the screencopy session is obtained) or a
plain capture session. -/
def ext_screencopy_init_session (env : Env) (s : St) :
    Int × St × List Ev :=
  let evs₀ := if s.session then [Ev.sessionDestroyed] else []
  let s₀ : St := { s with session := false }
  if env.source_ok = false then
    (-1, s₀, evs₀)
  else if s.capture_cursor then
    if env.cursor_ok = false then
      (-1, s₀, evs₀ ++ [Ev.sourceCreated, Ev.sourceDestroyed])
    else
      (0, { s₀ with session := true, cursor := true },
        evs₀ ++ [Ev.sourceCreated, Ev.cursorSessionCreated,
          Ev.sourceDestroyed, Ev.sessionCreated])
  else
    if env.session_ok = false then
      (-1, s₀, evs₀ ++ [Ev.sourceCreated, Ev.sourceDestroyed])
    else
      (0, { s₀ with session := true },
        evs₀ ++ [Ev.sourceCreated, Ev.sessionCreated, Ev.sourceDestroyed])

/-- ext_screencopy_schedule_capture (session dialect): acquire a buffer
from the pool, tag its domain, attach it to the session, send one
damage_buffer hint per accumulated rectangle, then commit with the
ON_DAMAGE flag when immediate is false.  NOTE: unlike the frame
dialect, this variant contains no assertion against an already
outstanding capture; none is returned only when the session proxy is
NULL (the attach request would dereference it). -/
def ext_screencopy_schedule_capture (s : St) (immediate : Bool) :
    Option (St × List Ev) :=
  if s.session = false then none
  else
    let buf : WvBuffer :=
      { id := s.pool_next
        domain := if s.capture_cursor then .cursor else .output
        buffer_damage := []
        transform := none }
    some ({ s with buffer := some buf, pool_next := s.pool_next + 1 },
      [Ev.poolAcquire buf.id, Ev.attachBuffer buf.id]
        ++ buf.buffer_damage.map Ev.damageBuffer
        ++ [Ev.commit (!immediate), Ev.logCommit immediate buf.id])

/-- session_handle_format_shm: record the shared-memory format. -/
def session_handle_format_shm (s : St) (format : Nat) : St :=
  { s with have_wl_shm := true, wl_shm_format := format }

/-- session_handle_format_drm: record the dmabuf format
(ENABLE_SCREENCOPY_DMABUF taken as enabled). -/
def session_handle_format_drm (s : St) (format : Nat) : St :=
  { s with have_linux_dmabuf := true, dmabuf_format := format }

/-- session_handle_dimensions: record width/height and the fixed
width*4 shared-memory stride (uint32 arithmetic). -/
def session_handle_dimensions (s : St) (width height : Nat) : St :=
  { s with width := width, height := height,
           wl_shm_stride := width * 4 % 2 ^ 32 }

/-- session_handle_constraints_done: choose dmabuf when advertised and
enabled, else shm; resize the pool; issue any deferred start with the
recorded immediate flag and clear both deferral flags; mark buffer
info as known. -/
def session_handle_constraints_done (s : St) : Option (St × List Ev) :=
  let p : BufferType × Nat × Nat :=
    if s.have_linux_dmabuf && s.enable_linux_dmabuf then
      (BufferType.dmabuf, 0, s.dmabuf_format)
    else
      (BufferType.shm, s.wl_shm_stride, s.wl_shm_format)
  let resizeEv := Ev.poolResize p.1 s.width s.height p.2.1 p.2.2
  if s.should_start then
    match ext_screencopy_schedule_capture s s.shall_be_immediate with
    | none => none
    | some (s₁, evs) =>
        some ({ s₁ with
            should_start := false
            shall_be_immediate := false
            have_buffer_info := true }, resizeEv :: evs)
  else
    some ({ s with have_buffer_info := true }, [resizeEv])

/-- session_handle_ready: assert the buffer exists, mark full frame
damage for every consumer in the capture domain, clear the buffer
requested-damage region, detach the buffer and deliver it to the
completion callback with result done. -/
def session_handle_ready (s : St) : Option (St × List Ev) :=
  match s.buffer with
  | none => none
  | some b =>
    let domain := if s.capture_cursor then BufferDomain.cursor
      else BufferDomain.output
    some ({ s with buffer := none },
      [Ev.registryDamageAll b.id domain,
       Ev.onDone CopyResult.done (some { b with buffer_damage := [] })])

/-- session_handle_failed: assert the buffer exists, release it back to
the pool, reinitialize the whole session when the reason is
INVALID_BUFFER, then invoke the completion callback with result failed
and no buffer. -/
def session_handle_failed (env : Env) (s : St) (reason : FailureReason) :
    Option (St × List Ev) :=
  match s.buffer with
  | none => none
  | some b =>
    let s₁ : St := { s with buffer := none }
    if reason = FailureReason.invalidBuffer then
      let r := ext_screencopy_init_session env s₁
      some (r.2.1, [Ev.poolRelease b] ++ r.2.2
        ++ [Ev.onDone CopyResult.failed none])
    else
      some (s₁, [Ev.poolRelease b, Ev.onDone CopyResult.failed none])

/-- session_handle_damage: wv_buffer_damage_rect on the in-flight
buffer (a NULL buffer would be dereferenced, hence none). -/
def session_handle_damage (s : St) (x y width height : Int) : Option St :=
  match s.buffer with
  | none => none
  | some b =>
    let b₁ : WvBuffer :=
      { b with buffer_damage := b.buffer_damage ++ [⟨x, y, width, height⟩] }
    some { s with buffer := some b₁ }

/-- session_handle_transform: assert the buffer exists and stamp the
transform onto its framebuffer metadata. -/
def session_handle_transform (s : St) (transform : Nat) : Option St :=
  match s.buffer with
  | none => none
  | some b => some { s with buffer := some { b with transform := some transform } }

/-- ext_screencopy_start (session dialect): when buffer info is not yet
known, record the deferred start and its immediate flag; otherwise
schedule a capture now.  Always returns 0 when it returns. -/
def ext_screencopy_start (s : St) (immediate : Bool) :
    Option (Int × St × List Ev) :=
  if s.have_buffer_info = false then
    some (0, { s with should_start := true, shall_be_immediate := immediate }, [])
  else
    match ext_screencopy_schedule_capture s immediate with
    | none => none
    | some (s₁, evs) => some (0, s₁, evs)

/-- ext_screencopy_stop: performs no protocol action. -/
def ext_screencopy_stop (s : St) : St := s

/-- ext_screencopy_destroy (session dialect): destroy the session proxy
if present, then release the in-flight buffer back to the pool if
present, then free the handle. -/
def ext_screencopy_destroy (s : St) : List Ev :=
  (if s.session then [Ev.sessionDestroyed] else [])
    ++ (match s.buffer with
        | some b => [Ev.poolRelease b]
        | none => [])

/-- State of a freshly created handle in this dialect. -/
def initState : St :=
  { session := true, cursor := false, buffer := none, pool_next := 0,
    render_cursors := false, capture_cursor := false,
    have_buffer_info := false, should_start := false,
    shall_be_immediate := false, enable_linux_dmabuf := false,
    width := 0, height := 0, wl_shm_stride := 0, wl_shm_format := 0,
    have_wl_shm := false, have_linux_dmabuf := false, dmabuf_format := 0 }

/-- One upcall from the event loop or one caller API call. -/
inductive Act
  | start (immediate : Bool)
  | shmFormat (format : Nat)
  | dmabufFormat (format : Nat)
  | bufferSize (width height : Nat)
  | constraintsDone
  | sessionDamage (x y w h : Int)
  | sessionTransform (t : Nat)
  | sessionReady
  | sessionFailed (reason : FailureReason)
deriving Repr, DecidableEq

/-- Dispatch one action to the corresponding source function. -/
def step (env : Env) (s : St) : Act → Option (St × List Ev)
  | .start imm =>
      match ext_screencopy_start s imm with
      | none => none
      | some (_, s₁, evs) => some (s₁, evs)
  | .shmFormat f => some (session_handle_format_shm s f, [])
  | .dmabufFormat f => some (session_handle_format_drm s f, [])
  | .bufferSize w h => some (session_handle_dimensions s w h, [])
  | .constraintsDone => session_handle_constraints_done s
  | .sessionDamage x y w h =>
      match session_handle_damage s x y w h with
      | none => none
      | some s₁ => some (s₁, [])
  | .sessionTransform t =>
      match session_handle_transform s t with
      | none => none
      | some s₁ => some (s₁, [])
  | .sessionReady => session_handle_ready s
  | .sessionFailed r => session_handle_failed env s r

/-- Run a sequence of actions, accumulating the event trace. -/
def run (env : Env) (s : St) : List Act → Option (St × List Ev)
  | [] => some (s, [])
  | a :: rest =>
    match step env s a with
    | none => none
    | some (s₁, evs) =>
      match run env s₁ rest with
      | none => none
      | some (s₂, evs₂) => some (s₂, evs ++ evs₂)

end ExtSession

namespace Screencopy

/-- The extern manager globals consulted by screencopy_create: whether
each advertised interface proxy is non-NULL. -/
structure Globals where
  screencopy_manager : Bool
  ext_image_source_manager : Bool
  ext_screencopy_manager : Bool
deriving Repr, DecidableEq

/-- Which backend create function screencopy_create invokes. -/
inductive BackendChoice
  /-- ext_screencopy_impl.create: the ext dialect with image-source
  abstraction. -/
  | extImpl
  /-- wlr_screencopy_impl.create: the fallback zwlr dialect. -/
  | wlrImpl
  /-- neither manager advertised: NULL is returned. -/
  | noBackend
deriving Repr, DecidableEq

/-- screencopy_create: prefer the ext backend when both its managers
are advertised, fall back to the wlr backend, else NULL. -/
def screencopy_create (g : Globals) : BackendChoice :=
  if g.ext_screencopy_manager && g.ext_image_source_manager then .extImpl
  else if g.screencopy_manager then .wlrImpl
  else .noBackend

/-- screencopy_create_cursor: call the chosen impl create_cursor hook
when it is non-NULL, else return NULL.  The hook is modelled as an
optional result. -/
def screencopy_create_cursor (create_cursor_hook : Option Bool) :
    Option Bool :=
  match create_cursor_hook with
  | some r => some r
  | none => none

/-- Does this event count as acquiring a buffer from the pool? -/
def isAcquire : Ev → Bool
  | .poolAcquire _ => true
  | _ => false

/-- Acquire of the buffer with id n. -/
def isAcquireOf (n : Nat) : Ev → Bool
  | .poolAcquire m => m == n
  | _ => false

/-- Release back to the pool of the buffer with id n. -/
def isReleaseOf (n : Nat) : Ev → Bool
  | .poolRelease b => b.id == n
  | _ => false

/-- Delivery to the completion callback, with result done, of the
buffer with id n. -/
def isDeliveryOf (n : Nat) : Ev → Bool
  | .onDone .done (some b) => b.id == n
  | _ => false

/-- A failed completion callback never carries a buffer. -/
def failedCarriesNoBuffer : Ev → Bool
  | .onDone .failed (some _) => false
  | _ => true

/-- Number of acquisitions of buffer n in a trace. -/
def acquires (n : Nat) (evs : List Ev) : Nat := evs.countP (isAcquireOf n)

/-- Number of pool releases of buffer n in a trace. -/
def releases (n : Nat) (evs : List Ev) : Nat := evs.countP (isReleaseOf n)

/-- Number of done-deliveries of buffer n in a trace. -/
def deliveries (n : Nat) (evs : List Ev) : Nat := evs.countP (isDeliveryOf n)

/-- 1 when the in-flight slot holds buffer n, else 0. -/
def slotCount (n : Nat) : Option WvBuffer → Nat
  | some b => if b.id = n then 1 else 0
  | none => 0

end Screencopy

namespace ExtFrame

open Screencopy

/-- Trace invariant tying the pool ledger to the session state: every
acquired buffer id is accounted for exactly once (released, delivered
with result done, or currently in flight), ids are handed out at most
once, the frame proxy exists exactly when a buffer is in flight, and
failed callbacks never carry a buffer. -/
structure Inv (s : St) (evs : List Ev) : Prop where
  balance : ∀ n, acquires n evs =
    releases n evs + deliveries n evs + slotCount n s.buffer
  fresh : ∀ n, s.pool_next ≤ n → acquires n evs = 0
  once : ∀ n, acquires n evs ≤ 1
  sync : s.frame = s.buffer.isSome
  failedNone : ∀ e ∈ evs, failedCarriesNoBuffer e = true

end ExtFrame

open Screencopy

/-- C6: screencopy_create picks exactly one backend as a static choice —
the ext backend (frame dialect with image-source abstraction) exactly
when both of its managers are advertised, otherwise the wlr backend
exactly when its manager is advertised, otherwise NULL. -/
theorem c6_backend_selection (g : Globals) :
    (screencopy_create g = BackendChoice.extImpl ↔
      g.ext_screencopy_manager = true ∧ g.ext_image_source_manager = true) ∧
    (screencopy_create g = BackendChoice.wlrImpl ↔
      ¬(g.ext_screencopy_manager = true ∧ g.ext_image_source_manager = true) ∧
      g.screencopy_manager = true) ∧
    (screencopy_create g = BackendChoice.noBackend ↔
      ¬(g.ext_screencopy_manager = true ∧ g.ext_image_source_manager = true) ∧
      g.screencopy_manager = false) := by
  obtain ⟨a, b, c⟩ := g
  cases a <;> cases b <;> cases c <;> decide

/-- C9: whenever start returns (that is, no assertion fires), its
synchronous return value is 0, in both backend dialects, whether the
capture was scheduled immediately or deferred. -/
theorem c9_start_returns_zero :
    (∀ (s : ExtFrame.St) (immediate : Bool) (r : Int) (s₁ : ExtFrame.St)
        (evs : List Ev),
      ExtFrame.ext_screencopy_start s immediate = some (r, s₁, evs) → r = 0) ∧
    (∀ (s : ExtSession.St) (immediate : Bool) (r : Int) (s₁ : ExtSession.St)
        (evs : List Ev),
      ExtSession.ext_screencopy_start s immediate = some (r, s₁, evs) → r = 0) := by
  constructor
  · intro s immediate r s₁ evs h
    unfold ExtFrame.ext_screencopy_start at h
    split at h
    · simp only [Option.some.injEq, Prod.mk.injEq] at h
      exact h.1.symm
    · split at h
      · exact absurd h (by simp)
      · simp only [Option.some.injEq, Prod.mk.injEq] at h
        exact h.1.symm
  · intro s immediate r s₁ evs h
    unfold ExtSession.ext_screencopy_start at h
    split at h
    · simp only [Option.some.injEq, Prod.mk.injEq] at h
      exact h.1.symm
    · split at h
      · exact absurd h (by simp)
      · simp only [Option.some.injEq, Prod.mk.injEq] at h
        exact h.1.symm

/-- Witness for C9 at a concrete deferred start. -/
theorem c9_start_returns_zero_witness :
    ExtFrame.ext_screencopy_start ExtFrame.initState true =
      some (0, { ExtFrame.initState with
        should_start := true, shall_be_immediate := true }, []) ∧
    (0 : Int) = 0 :=
  ⟨rfl, c9_start_returns_zero.1 ExtFrame.initState true 0
    { ExtFrame.initState with should_start := true, shall_be_immediate := true }
    [] rfl⟩

/-- C8: on a ready event with a buffer in flight, the handler marks
full frame damage for every consumer in the capture domain (cursor or
output), clears the buffer accumulated requested-damage region,
detaches the buffer from the session, and delivers exactly that buffer
to the completion callback with result done — in both dialects. -/
theorem c8_ready_delivers_buffer :
    (∀ (s : ExtFrame.St) (b : WvBuffer), s.frame = true → s.buffer = some b →
      ExtFrame.frame_handle_ready s =
        some ({ s with frame := false, buffer := none },
          [Ev.frameDestroyed,
           Ev.registryDamageAll b.id
             (if s.capture_cursor then BufferDomain.cursor else BufferDomain.output),
           Ev.onDone CopyResult.done (some { b with buffer_damage := [] })])) ∧
    (∀ (s : ExtSession.St) (b : WvBuffer), s.buffer = some b →
      ExtSession.session_handle_ready s =
        some ({ s with buffer := none },
          [Ev.registryDamageAll b.id
             (if s.capture_cursor then BufferDomain.cursor else BufferDomain.output),
           Ev.onDone CopyResult.done (some { b with buffer_damage := [] })])) := by
  constructor
  · intro s b hf hb
    unfold ExtFrame.frame_handle_ready
    rw [hf, hb]
    simp
  · intro s b hb
    unfold ExtSession.session_handle_ready
    rw [hb]

/-- Witness for C8 at a concrete in-flight buffer with pending damage. -/
theorem c8_ready_delivers_buffer_witness :
    ({ ExtFrame.initState with
        frame := true
        buffer := some ⟨0, BufferDomain.output, [⟨1, 2, 3, 4⟩], none⟩ } :
          ExtFrame.St).frame = true ∧
    ExtFrame.frame_handle_ready
      { ExtFrame.initState with
        frame := true
        buffer := some ⟨0, BufferDomain.output, [⟨1, 2, 3, 4⟩], none⟩ } =
      some ({ ExtFrame.initState with frame := false, buffer := none },
        [Ev.frameDestroyed,
         Ev.registryDamageAll 0 BufferDomain.output,
         Ev.onDone CopyResult.done
           (some ⟨0, BufferDomain.output, [], none⟩)]) := by
  refine ⟨rfl, ?_⟩
  have h := c8_ready_delivers_buffer.1
    { ExtFrame.initState with
      frame := true
      buffer := some ⟨0, BufferDomain.output, [⟨1, 2, 3, 4⟩], none⟩ }
    ⟨0, BufferDomain.output, [⟨1, 2, 3, 4⟩], none⟩ rfl rfl
  simpa using h

/-- C3: a start issued before negotiation completes acquires no buffer
and only records the deferral flags; the next constraints-done event
schedules exactly one capture using the recorded immediate flag and
clears both flags, so a further constraints-done event schedules
nothing. -/
theorem c3_deferred_start_single_capture (s : ExtFrame.St) (immediate : Bool)
    (h1 : s.have_buffer_info = false) (h2 : s.frame = false)
    (h3 : s.session = true) :
    ExtFrame.ext_screencopy_start s immediate =
      some (0, { s with should_start := true, shall_be_immediate := immediate },
        []) ∧
    ∃ s₂ evs₂,
      ExtFrame.session_handle_constraints_done
        { s with should_start := true, shall_be_immediate := immediate } =
        some (s₂, evs₂) ∧
      evs₂.countP isAcquire = 1 ∧
      Ev.logCommit immediate s.pool_next ∈ evs₂ ∧
      s₂.should_start = false ∧ s₂.shall_be_immediate = false ∧
      s₂.have_buffer_info = true ∧
      ∀ s₃ evs₃,
        ExtFrame.session_handle_constraints_done s₂ = some (s₃, evs₃) →
          evs₃.countP isAcquire = 0 := by
  have hstart : ExtFrame.ext_screencopy_start s immediate =
      some (0, { s with should_start := true, shall_be_immediate := immediate },
        []) := by
    unfold ExtFrame.ext_screencopy_start
    simp [h1]
  refine ⟨hstart, ?_⟩
  have hsched : ExtFrame.ext_screencopy_schedule_capture
      { s with should_start := true, shall_be_immediate := immediate }
      immediate =
      some ({ s with
          should_start := true
          shall_be_immediate := immediate
          buffer := some ⟨s.pool_next,
            (if s.capture_cursor then BufferDomain.cursor else BufferDomain.output),
            [], none⟩
          frame := true
          pool_next := s.pool_next + 1 },
        [Ev.poolAcquire s.pool_next, Ev.frameCreated,
         Ev.attachBuffer s.pool_next, Ev.capture,
         Ev.logCommit immediate s.pool_next]) := by
    unfold ExtFrame.ext_screencopy_schedule_capture
    simp [h2, h3]
  have hlast : ∀ (s₂ : ExtFrame.St), s₂.should_start = false →
      ∀ s₃ evs₃,
        ExtFrame.session_handle_constraints_done s₂ = some (s₃, evs₃) →
          evs₃.countP isAcquire = 0 := by
    intro s₂ hss s₃ evs₃ h
    unfold ExtFrame.session_handle_constraints_done at h
    rw [hss] at h
    simp only [Bool.false_eq_true, if_false, Option.some.injEq,
      Prod.mk.injEq] at h
    obtain ⟨-, h2'⟩ := h
    subst h2'
    simp [isAcquire]
  cases hdm : s.have_linux_dmabuf && s.enable_linux_dmabuf
  · refine ⟨{ s with
        should_start := false
        shall_be_immediate := false
        have_buffer_info := true
        frame := true
        pool_next := s.pool_next + 1
        buffer := some ⟨s.pool_next,
          (if s.capture_cursor then BufferDomain.cursor else BufferDomain.output),
          [], none⟩ },
      Ev.poolResize BufferType.shm s.width s.height s.wl_shm_stride
          s.wl_shm_format ::
        [Ev.poolAcquire s.pool_next, Ev.frameCreated,
         Ev.attachBuffer s.pool_next, Ev.capture,
         Ev.logCommit immediate s.pool_next], ?_, ?_, ?_, rfl, rfl, rfl,
      hlast _ rfl⟩
    · unfold ExtFrame.session_handle_constraints_done
      simp [hsched, hdm]
    · simp [isAcquire]
    · simp
  · refine ⟨{ s with
        should_start := false
        shall_be_immediate := false
        have_buffer_info := true
        frame := true
        pool_next := s.pool_next + 1
        buffer := some ⟨s.pool_next,
          (if s.capture_cursor then BufferDomain.cursor else BufferDomain.output),
          [], none⟩ },
      Ev.poolResize BufferType.dmabuf s.width s.height 0 s.dmabuf_format ::
        [Ev.poolAcquire s.pool_next, Ev.frameCreated,
         Ev.attachBuffer s.pool_next, Ev.capture,
         Ev.logCommit immediate s.pool_next], ?_, ?_, ?_, rfl, rfl, rfl,
      hlast _ rfl⟩
    · unfold ExtFrame.session_handle_constraints_done
      simp [hsched, hdm]
    · simp [isAcquire]
    · simp

/-- Witness for C3 at the freshly created state with immediate = true. -/
theorem c3_deferred_start_single_capture_witness :
    (ExtFrame.initState.have_buffer_info = false ∧
     ExtFrame.initState.frame = false ∧
     ExtFrame.initState.session = true) ∧
    (ExtFrame.ext_screencopy_start ExtFrame.initState true =
      some (0, { ExtFrame.initState with
        should_start := true, shall_be_immediate := true }, []) ∧
    ∃ s₂ evs₂,
      ExtFrame.session_handle_constraints_done
        { ExtFrame.initState with
          should_start := true, shall_be_immediate := true } =
        some (s₂, evs₂) ∧
      evs₂.countP isAcquire = 1 ∧
      Ev.logCommit true ExtFrame.initState.pool_next ∈ evs₂ ∧
      s₂.should_start = false ∧ s₂.shall_be_immediate = false ∧
      s₂.have_buffer_info = true ∧
      ∀ s₃ evs₃,
        ExtFrame.session_handle_constraints_done s₂ = some (s₃, evs₃) →
          evs₃.countP isAcquire = 0) :=
  ⟨⟨rfl, rfl, rfl⟩,
    c3_deferred_start_single_capture ExtFrame.initState true rfl rfl rfl⟩

/-- C10: two starts before negotiation completes coalesce — the second
overwrites the recorded immediate flag, neither acquires a buffer, and
the constraints-done event schedules exactly one capture using the
most recent immediate value. -/
theorem c10_deferred_starts_coalesce (s : ExtFrame.St) (imm1 imm2 : Bool)
    (h1 : s.have_buffer_info = false) (h2 : s.frame = false)
    (h3 : s.session = true) :
    ExtFrame.ext_screencopy_start s imm1 =
      some (0, { s with should_start := true, shall_be_immediate := imm1 },
        []) ∧
    ExtFrame.ext_screencopy_start
      { s with should_start := true, shall_be_immediate := imm1 } imm2 =
      some (0, { s with should_start := true, shall_be_immediate := imm2 },
        []) ∧
    ∃ s₃ evs₃,
      ExtFrame.session_handle_constraints_done
        { s with should_start := true, shall_be_immediate := imm2 } =
        some (s₃, evs₃) ∧
      evs₃.countP isAcquire = 1 ∧
      Ev.logCommit imm2 s.pool_next ∈ evs₃ ∧
      s₃.should_start = false := by
  refine ⟨?_, ?_, ?_⟩
  · unfold ExtFrame.ext_screencopy_start
    simp [h1]
  · unfold ExtFrame.ext_screencopy_start
    simp [h1]
  · obtain ⟨-, s₂, evs₂, hc, ha, hm, hs, -, -, -⟩ :=
      c3_deferred_start_single_capture s imm2 h1 h2 h3
    exact ⟨s₂, evs₂, hc, ha, hm, hs⟩

/-- Witness for C10 with imm1 = true overwritten by imm2 = false. -/
theorem c10_deferred_starts_coalesce_witness :
    (ExtFrame.initState.have_buffer_info = false ∧
     ExtFrame.initState.frame = false ∧
     ExtFrame.initState.session = true) ∧
    (ExtFrame.ext_screencopy_start ExtFrame.initState true =
      some (0, { ExtFrame.initState with
        should_start := true, shall_be_immediate := true }, []) ∧
    ExtFrame.ext_screencopy_start
      { ExtFrame.initState with
        should_start := true, shall_be_immediate := true } false =
      some (0, { ExtFrame.initState with
        should_start := true, shall_be_immediate := false }, []) ∧
    ∃ s₃ evs₃,
      ExtFrame.session_handle_constraints_done
        { ExtFrame.initState with
          should_start := true, shall_be_immediate := false } =
        some (s₃, evs₃) ∧
      evs₃.countP isAcquire = 1 ∧
      Ev.logCommit false ExtFrame.initState.pool_next ∈ evs₃ ∧
      s₃.should_start = false) :=
  ⟨⟨rfl, rfl, rfl⟩,
    c10_deferred_starts_coalesce ExtFrame.initState true false rfl rfl rfl⟩

/-- C4: on a capture failure with the invalidating reason
(BUFFER_CONSTRAINTS in the frame dialect, INVALID_BUFFER in the
session dialect) the protocol session is torn down and reopened before
the failure callback fires; for every other reason no session teardown
or reopen occurs; in both cases the buffer is released, the callback
fires with result failed as the last action, and the negotiated format
fields are left intact. -/
theorem c4_invalidating_failure_reinit :
    (∀ (s : ExtFrame.St) (b : WvBuffer) (reason : ExtFrame.FailureReason),
      s.frame = true → s.buffer = some b → s.session = true →
      ∃ s₁ evs,
        ExtFrame.frame_handle_failed envAllOk s reason = some (s₁, evs) ∧
        evs.getLast? = some (Ev.onDone CopyResult.failed none) ∧
        Ev.poolRelease b ∈ evs ∧
        (reason = ExtFrame.FailureReason.bufferConstraints →
          Ev.sessionDestroyed ∈ evs.dropLast ∧
          Ev.sessionCreated ∈ evs.dropLast ∧ s₁.session = true) ∧
        (reason ≠ ExtFrame.FailureReason.bufferConstraints →
          Ev.sessionDestroyed ∉ evs ∧ Ev.sessionCreated ∉ evs ∧
          s₁.session = s.session) ∧
        s₁.width = s.width ∧ s₁.height = s.height ∧
        s₁.wl_shm_format = s.wl_shm_format ∧
        s₁.wl_shm_stride = s.wl_shm_stride ∧
        s₁.dmabuf_format = s.dmabuf_format) ∧
    (∀ (s : ExtSession.St) (b : WvBuffer) (reason : ExtSession.FailureReason),
      s.buffer = some b → s.session = true →
      ∃ s₁ evs,
        ExtSession.session_handle_failed envAllOk s reason = some (s₁, evs) ∧
        evs.getLast? = some (Ev.onDone CopyResult.failed none) ∧
        Ev.poolRelease b ∈ evs ∧
        (reason = ExtSession.FailureReason.invalidBuffer →
          Ev.sessionDestroyed ∈ evs.dropLast ∧
          Ev.sessionCreated ∈ evs.dropLast ∧ s₁.session = true) ∧
        (reason ≠ ExtSession.FailureReason.invalidBuffer →
          Ev.sessionDestroyed ∉ evs ∧ Ev.sessionCreated ∉ evs ∧
          s₁.session = s.session) ∧
        s₁.width = s.width ∧ s₁.height = s.height ∧
        s₁.wl_shm_format = s.wl_shm_format ∧
        s₁.wl_shm_stride = s.wl_shm_stride ∧
        s₁.dmabuf_format = s.dmabuf_format) := by
  constructor
  · intro s b reason hf hb hs
    by_cases hr : reason = ExtFrame.FailureReason.bufferConstraints
    · refine ⟨{ s with frame := false, buffer := none, session := true },
        [Ev.frameDestroyed, Ev.poolRelease b, Ev.sessionDestroyed,
         Ev.sourceCreated, Ev.sessionCreated, Ev.sourceDestroyed,
         Ev.onDone CopyResult.failed none], ?_, by simp, by simp,
        fun _ => ⟨by simp, by simp, rfl⟩, fun hne => absurd hr hne,
        rfl, rfl, rfl, rfl, rfl⟩
      unfold ExtFrame.frame_handle_failed ExtFrame.ext_screencopy_init_session
      rw [hf, hb, hr]
      simp [envAllOk, hs]
    · refine ⟨{ s with frame := false, buffer := none },
        [Ev.frameDestroyed, Ev.poolRelease b,
         Ev.onDone CopyResult.failed none], ?_, by simp, by simp,
        fun heq => absurd heq hr, fun _ => ⟨by simp, by simp, rfl⟩,
        rfl, rfl, rfl, rfl, rfl⟩
      unfold ExtFrame.frame_handle_failed
      rw [hf, hb]
      simp [hr]
  · intro s b reason hb hs
    by_cases hr : reason = ExtSession.FailureReason.invalidBuffer
    · by_cases hc : s.capture_cursor = true
      · refine ⟨{ s with buffer := none, session := true, cursor := true },
          [Ev.poolRelease b, Ev.sessionDestroyed, Ev.sourceCreated,
           Ev.cursorSessionCreated, Ev.sourceDestroyed, Ev.sessionCreated,
           Ev.onDone CopyResult.failed none], ?_, by simp, by simp,
          fun _ => ⟨by simp, by simp, rfl⟩, fun hne => absurd hr hne,
          rfl, rfl, rfl, rfl, rfl⟩
        unfold ExtSession.session_handle_failed
          ExtSession.ext_screencopy_init_session
        rw [hb, hr]
        simp [envAllOk, hs, hc]
      · refine ⟨{ s with buffer := none, session := true },
          [Ev.poolRelease b, Ev.sessionDestroyed, Ev.sourceCreated,
           Ev.sessionCreated, Ev.sourceDestroyed,
           Ev.onDone CopyResult.failed none], ?_, by simp, by simp,
          fun _ => ⟨by simp, by simp, rfl⟩, fun hne => absurd hr hne,
          rfl, rfl, rfl, rfl, rfl⟩
        unfold ExtSession.session_handle_failed
          ExtSession.ext_screencopy_init_session
        rw [hb, hr]
        simp [envAllOk, hs, hc]
    · refine ⟨{ s with buffer := none },
        [Ev.poolRelease b, Ev.onDone CopyResult.failed none], ?_, by simp,
        by simp, fun heq => absurd heq hr, fun _ => ⟨by simp, by simp, rfl⟩,
        rfl, rfl, rfl, rfl, rfl⟩
      unfold ExtSession.session_handle_failed
      rw [hb]
      simp [hr]

/-- Witness for C4 at a concrete invalidating failure in the frame
dialect. -/
theorem c4_invalidating_failure_reinit_witness :
    (({ ExtFrame.initState with
        frame := true
        buffer := some ⟨0, BufferDomain.output, [], none⟩ } : ExtFrame.St).frame
          = true ∧
     ({ ExtFrame.initState with
        frame := true
        buffer := some ⟨0, BufferDomain.output, [], none⟩ } : ExtFrame.St).buffer
          = some ⟨0, BufferDomain.output, [], none⟩ ∧
     ({ ExtFrame.initState with
        frame := true
        buffer := some ⟨0, BufferDomain.output, [], none⟩ } : ExtFrame.St).session
          = true) ∧
    (∃ s₁ evs,
      ExtFrame.frame_handle_failed envAllOk
        { ExtFrame.initState with
          frame := true
          buffer := some ⟨0, BufferDomain.output, [], none⟩ }
        ExtFrame.FailureReason.bufferConstraints = some (s₁, evs) ∧
      evs.getLast? = some (Ev.onDone CopyResult.failed none) ∧
      Ev.poolRelease ⟨0, BufferDomain.output, [], none⟩ ∈ evs ∧
      (ExtFrame.FailureReason.bufferConstraints =
          ExtFrame.FailureReason.bufferConstraints →
        Ev.sessionDestroyed ∈ evs.dropLast ∧
        Ev.sessionCreated ∈ evs.dropLast ∧ s₁.session = true) ∧
      (ExtFrame.FailureReason.bufferConstraints ≠
          ExtFrame.FailureReason.bufferConstraints →
        Ev.sessionDestroyed ∉ evs ∧ Ev.sessionCreated ∉ evs ∧
        s₁.session = ({ ExtFrame.initState with
          frame := true
          buffer := some ⟨0, BufferDomain.output, [], none⟩ } :
            ExtFrame.St).session) ∧
      s₁.width = ExtFrame.initState.width ∧
      s₁.height = ExtFrame.initState.height ∧
      s₁.wl_shm_format = ExtFrame.initState.wl_shm_format ∧
      s₁.wl_shm_stride = ExtFrame.initState.wl_shm_stride ∧
      s₁.dmabuf_format = ExtFrame.initState.dmabuf_format) :=
  ⟨⟨rfl, rfl, rfl⟩,
    c4_invalidating_failure_reinit.1
      { ExtFrame.initState with
        frame := true
        buffer := some ⟨0, BufferDomain.output, [], none⟩ }
      ⟨0, BufferDomain.output, [], none⟩
      ExtFrame.FailureReason.bufferConstraints rfl rfl rfl⟩

/-- C5 counterexample: negotiate (shm format, 4x4, constraints done),
start a capture, receive an invalidating failure (BUFFER_CONSTRAINTS),
then issue the next start.  No second constraints-done event has
fired, yet the run ends with should_start = false (the start did not
defer), a buffer in flight, and buffer id 1 freshly acquired — so the
next start does not wait for the fresh negotiation sequence before
acquiring a buffer, contrary to the claim. -/
theorem c5_counterexample :
    (ExtFrame.run envAllOk ExtFrame.initState
        [ExtFrame.Act.shmFormat 1, ExtFrame.Act.bufferSize 4 4,
         ExtFrame.Act.constraintsDone, ExtFrame.Act.start true,
         ExtFrame.Act.frameFailed ExtFrame.FailureReason.bufferConstraints,
         ExtFrame.Act.start true]).map
      (fun r => (r.1.should_start, r.1.have_buffer_info, r.1.buffer.isSome,
        acquires 1 r.2)) = some (false, true, true, 1) := by
  decide

/-- C5 amended: after an invalidating failure the failure handler does
reopen the protocol session before the callback (so fresh negotiation
events will arrive), but have_buffer_info is never reset, so the very
next start does not defer: it immediately acquires and attaches a
buffer using the previously negotiated parameters instead of waiting
for the new negotiation-complete event. -/
theorem c5_next_start_does_not_defer (s : ExtFrame.St) (b : WvBuffer)
    (hf : s.frame = true) (hb : s.buffer = some b) (hs : s.session = true)
    (hi : s.have_buffer_info = true) (hss : s.should_start = false) :
    ∃ s₁ evs₁,
      ExtFrame.frame_handle_failed envAllOk s
        ExtFrame.FailureReason.bufferConstraints = some (s₁, evs₁) ∧
      Ev.sessionCreated ∈ evs₁ ∧
      s₁.have_buffer_info = true ∧ s₁.should_start = false ∧
      ∀ imm, ∃ s₂ evs₂,
        ExtFrame.ext_screencopy_start s₁ imm = some (0, s₂, evs₂) ∧
        Ev.poolAcquire s.pool_next ∈ evs₂ ∧
        s₂.should_start = false ∧ s₂.buffer.isSome = true := by
  refine ⟨{ s with frame := false, buffer := none, session := true },
    [Ev.frameDestroyed, Ev.poolRelease b, Ev.sessionDestroyed,
     Ev.sourceCreated, Ev.sessionCreated, Ev.sourceDestroyed,
     Ev.onDone CopyResult.failed none], ?_, by simp, hi, hss, ?_⟩
  · unfold ExtFrame.frame_handle_failed ExtFrame.ext_screencopy_init_session
    rw [hf, hb]
    simp [envAllOk, hs]
  · intro imm
    refine ⟨{ s with
        session := true
        frame := true
        buffer := some ⟨s.pool_next,
          (if s.capture_cursor then BufferDomain.cursor else BufferDomain.output),
          [], none⟩
        pool_next := s.pool_next + 1 },
      [Ev.poolAcquire s.pool_next, Ev.frameCreated,
       Ev.attachBuffer s.pool_next, Ev.capture,
       Ev.logCommit imm s.pool_next], ?_, by simp, hss, rfl⟩
    unfold ExtFrame.ext_screencopy_start
      ExtFrame.ext_screencopy_schedule_capture
    simp [hi]

/-- Witness for the amended C5 at a concrete in-flight capture. -/
theorem c5_next_start_does_not_defer_witness :
    (({ ExtFrame.initState with
        frame := true
        have_buffer_info := true
        buffer := some ⟨0, BufferDomain.output, [], none⟩ } :
          ExtFrame.St).frame = true) ∧
    (∃ s₁ evs₁,
      ExtFrame.frame_handle_failed envAllOk
        { ExtFrame.initState with
          frame := true
          have_buffer_info := true
          buffer := some ⟨0, BufferDomain.output, [], none⟩ }
        ExtFrame.FailureReason.bufferConstraints = some (s₁, evs₁) ∧
      Ev.sessionCreated ∈ evs₁ ∧
      s₁.have_buffer_info = true ∧ s₁.should_start = false ∧
      ∀ imm, ∃ s₂ evs₂,
        ExtFrame.ext_screencopy_start s₁ imm = some (0, s₂, evs₂) ∧
        Ev.poolAcquire 0 ∈ evs₂ ∧
        s₂.should_start = false ∧ s₂.buffer.isSome = true) :=
  ⟨rfl,
    c5_next_start_does_not_defer
      { ExtFrame.initState with
        frame := true
        have_buffer_info := true
        buffer := some ⟨0, BufferDomain.output, [], none⟩ }
      ⟨0, BufferDomain.output, [], none⟩ rfl rfl rfl rfl rfl⟩

/-- C7 counterexample: destroying a handle with a session open and a
buffer in flight emits frame destroy, then session destroy, then the
pool release — the release does not precede the protocol-resource
teardown, contrary to the claim. -/
theorem c7_counterexample :
    Ev.poolRelease ⟨0, BufferDomain.output, [], none⟩ ∈
      ExtFrame.ext_screencopy_destroy
        { ExtFrame.initState with
          frame := true
          buffer := some ⟨0, BufferDomain.output, [], none⟩ } ∧
    Ev.sessionDestroyed ∈
      ExtFrame.ext_screencopy_destroy
        { ExtFrame.initState with
          frame := true
          buffer := some ⟨0, BufferDomain.output, [], none⟩ } ∧
    ¬ (List.indexOf (Ev.poolRelease ⟨0, BufferDomain.output, [], none⟩)
          (ExtFrame.ext_screencopy_destroy
            { ExtFrame.initState with
              frame := true
              buffer := some ⟨0, BufferDomain.output, [], none⟩ }) <
        List.indexOf Ev.sessionDestroyed
          (ExtFrame.ext_screencopy_destroy
            { ExtFrame.initState with
              frame := true
              buffer := some ⟨0, BufferDomain.output, [], none⟩ })) := by
  decide

/-- C7 amended: destroy with a capture outstanding releases the
in-flight buffer back to the pool exactly once, as the last emitted
action — after destroying the frame and session protocol objects and
just before freeing the handle — so no pool-side leak occurs, but the
release follows the protocol teardown rather than preceding it. -/
theorem c7_destroy_releases_buffer_last :
    (∀ (s : ExtFrame.St) (b : WvBuffer), s.buffer = some b →
      ∃ pre, ExtFrame.ext_screencopy_destroy s = pre ++ [Ev.poolRelease b] ∧
        ∀ e ∈ pre, e = Ev.frameDestroyed ∨ e = Ev.sessionDestroyed) ∧
    (∀ (s : ExtSession.St) (b : WvBuffer), s.buffer = some b →
      ∃ pre, ExtSession.ext_screencopy_destroy s = pre ++ [Ev.poolRelease b] ∧
        ∀ e ∈ pre, e = Ev.sessionDestroyed) := by
  constructor
  · intro s b hb
    refine ⟨(if s.frame then [Ev.frameDestroyed] else []) ++
      (if s.session then [Ev.sessionDestroyed] else []), ?_, ?_⟩
    · unfold ExtFrame.ext_screencopy_destroy
      rw [hb]
    · intro e he
      rcases List.mem_append.1 he with h | h <;> split at h <;>
        simp_all
  · intro s b hb
    refine ⟨(if s.session then [Ev.sessionDestroyed] else []), ?_, ?_⟩
    · unfold ExtSession.ext_screencopy_destroy
      rw [hb]
    · intro e he
      split at he <;> simp_all

/-- Witness for the amended C7 at a concrete in-flight capture. -/
theorem c7_destroy_releases_buffer_last_witness :
    (({ ExtFrame.initState with
        frame := true
        buffer := some ⟨0, BufferDomain.output, [], none⟩ } :
          ExtFrame.St).buffer = some ⟨0, BufferDomain.output, [], none⟩) ∧
    (∃ pre,
      ExtFrame.ext_screencopy_destroy
        { ExtFrame.initState with
          frame := true
          buffer := some ⟨0, BufferDomain.output, [], none⟩ } =
        pre ++ [Ev.poolRelease ⟨0, BufferDomain.output, [], none⟩] ∧
      ∀ e ∈ pre, e = Ev.frameDestroyed ∨ e = Ev.sessionDestroyed) :=
  ⟨rfl,
    c7_destroy_releases_buffer_last.1
      { ExtFrame.initState with
        frame := true
        buffer := some ⟨0, BufferDomain.output, [], none⟩ }
      ⟨0, BufferDomain.output, [], none⟩ rfl⟩

/-- C2 counterexample: in the session dialect, after negotiation and a
first start (buffer 0 in flight), a second start while the capture is
still outstanding is not rejected — the run proceeds, acquires buffer
1, overwrites the in-flight reference, and buffer 0 is neither
released nor delivered.  So the single-outstanding-capture rule is not
enforced by an assertion in both backend dialects. -/
theorem c2_counterexample :
    ((ExtSession.run envAllOk ExtSession.initState
        [ExtSession.Act.shmFormat 1, ExtSession.Act.bufferSize 4 4,
         ExtSession.Act.constraintsDone, ExtSession.Act.start true]).map
      (fun r => r.1.buffer.isSome) = some true) ∧
    ((ExtSession.run envAllOk ExtSession.initState
        [ExtSession.Act.shmFormat 1, ExtSession.Act.bufferSize 4 4,
         ExtSession.Act.constraintsDone, ExtSession.Act.start true,
         ExtSession.Act.start true]).map
      (fun r => (r.1.buffer.map (fun bb => bb.id), acquires 0 r.2,
        releases 0 r.2, deliveries 0 r.2)) = some (some 1, 1, 0, 0)) := by
  constructor
  · decide
  · decide

/-- C2 amended: the single-outstanding-capture rule is enforced by an
assertion only in the frame dialect — schedule_capture (and hence a
start after negotiation) aborts on assert(!frame) when a capture is
outstanding; in the session dialect no such assertion exists, and a
second start proceeds, acquiring a fresh buffer and silently
overwriting the in-flight buffer reference without releasing or
delivering it. -/
theorem c2_assertion_frame_dialect_only :
    (∀ (s : ExtFrame.St) (imm : Bool), s.frame = true →
      ExtFrame.ext_screencopy_schedule_capture s imm = none) ∧
    (∀ (s : ExtFrame.St) (imm : Bool), s.frame = true →
      s.have_buffer_info = true →
      ExtFrame.ext_screencopy_start s imm = none) ∧
    (∀ (s : ExtSession.St) (b : WvBuffer) (imm : Bool),
      s.session = true → s.buffer = some b → s.have_buffer_info = true →
      ∃ s₁ evs,
        ExtSession.ext_screencopy_start s imm = some (0, s₁, evs) ∧
        acquires s.pool_next evs = 1 ∧
        (∀ n, releases n evs = 0) ∧ (∀ n, deliveries n evs = 0) ∧
        s₁.buffer = some ⟨s.pool_next,
          (if s.capture_cursor then BufferDomain.cursor else BufferDomain.output),
          [], none⟩) := by
  refine ⟨?_, ?_, ?_⟩
  · intro s imm hf
    unfold ExtFrame.ext_screencopy_schedule_capture
    rw [hf]
    simp
  · intro s imm hf hi
    unfold ExtFrame.ext_screencopy_start
      ExtFrame.ext_screencopy_schedule_capture
    rw [hf, hi]
    simp
  · intro s b imm hs hb hi
    refine ⟨{ s with
        buffer := some ⟨s.pool_next,
          (if s.capture_cursor then BufferDomain.cursor else BufferDomain.output),
          [], none⟩
        pool_next := s.pool_next + 1 },
      [Ev.poolAcquire s.pool_next, Ev.attachBuffer s.pool_next,
       Ev.commit (!imm), Ev.logCommit imm s.pool_next], ?_, ?_, ?_, ?_, rfl⟩
    · unfold ExtSession.ext_screencopy_start
        ExtSession.ext_screencopy_schedule_capture
      rw [hi]
      simp [hs]
    · simp [acquires, isAcquireOf, List.countP_cons]
    · intro n
      simp [releases, isReleaseOf, List.countP_cons]
    · intro n
      simp [deliveries, isDeliveryOf, List.countP_cons]

/-- Witness for the amended C2: the frame-dialect assert fires on a
concrete in-flight state, and a concrete session-dialect second start
proceeds. -/
theorem c2_assertion_frame_dialect_only_witness :
    ExtFrame.ext_screencopy_schedule_capture
      { ExtFrame.initState with
        frame := true
        buffer := some ⟨0, BufferDomain.output, [], none⟩ } true = none ∧
    (∃ s₁ evs,
      ExtSession.ext_screencopy_start
        { ExtSession.initState with
          have_buffer_info := true
          buffer := some ⟨0, BufferDomain.output, [], none⟩
          pool_next := 1 } true = some (0, s₁, evs) ∧
      acquires 1 evs = 1 ∧
      (∀ n, releases n evs = 0) ∧ (∀ n, deliveries n evs = 0) ∧
      s₁.buffer = some ⟨1, BufferDomain.output, [], none⟩) := by
  constructor
  · exact c2_assertion_frame_dialect_only.1
      { ExtFrame.initState with
        frame := true
        buffer := some ⟨0, BufferDomain.output, [], none⟩ } true rfl
  · exact c2_assertion_frame_dialect_only.2.2
      { ExtSession.initState with
        have_buffer_info := true
        buffer := some ⟨0, BufferDomain.output, [], none⟩
        pool_next := 1 }
      ⟨0, BufferDomain.output, [], none⟩ true rfl rfl rfl

/-- The reinit performed inside the failure handler touches no buffer:
it emits no pool acquires, releases or deliveries, keeps the buffer
slot and the pool counter, and leaves the frame proxy destroyed. -/
theorem init_session_events_spec (env : Env) (s : ExtFrame.St) :
    (∀ n, acquires n (ExtFrame.ext_screencopy_init_session env s).2.2 = 0) ∧
    (∀ n, releases n (ExtFrame.ext_screencopy_init_session env s).2.2 = 0) ∧
    (∀ n, deliveries n
      (ExtFrame.ext_screencopy_init_session env s).2.2 = 0) ∧
    (∀ e ∈ (ExtFrame.ext_screencopy_init_session env s).2.2,
      failedCarriesNoBuffer e = true) ∧
    (ExtFrame.ext_screencopy_init_session env s).2.1.buffer = s.buffer ∧
    (ExtFrame.ext_screencopy_init_session env s).2.1.pool_next
      = s.pool_next ∧
    (ExtFrame.ext_screencopy_init_session env s).2.1.frame = false := by
  unfold ExtFrame.ext_screencopy_init_session
  by_cases h1 : env.source_ok = false <;>
    by_cases h2 : env.session_ok = false <;>
      by_cases h3 : s.frame = true <;>
        by_cases h4 : s.session = true <;>
          simp [h1, h2, h3, h4, acquires, releases, deliveries,
            isAcquireOf, isReleaseOf, isDeliveryOf, failedCarriesNoBuffer]

/-- Acquire counts distribute over trace concatenation. -/
theorem acquires_append (n : Nat) (l₁ l₂ : List Ev) :
    acquires n (l₁ ++ l₂) = acquires n l₁ + acquires n l₂ := by
  simp [acquires, List.countP_append]

/-- Release counts distribute over trace concatenation. -/
theorem releases_append (n : Nat) (l₁ l₂ : List Ev) :
    releases n (l₁ ++ l₂) = releases n l₁ + releases n l₂ := by
  simp [releases, List.countP_append]

/-- Delivery counts distribute over trace concatenation. -/
theorem deliveries_append (n : Nat) (l₁ l₂ : List Ev) :
    deliveries n (l₁ ++ l₂) = deliveries n l₁ + deliveries n l₂ := by
  simp [deliveries, List.countP_append]

/-- Ledger counts of the event list emitted by a frame-dialect
schedule_capture: one acquire of the fresh id, nothing else. -/
theorem sched_evs_counts (n pn : Nat) (imm : Bool) :
    acquires n ([Ev.poolAcquire pn, Ev.frameCreated, Ev.attachBuffer pn] ++
        List.map Ev.damageBuffer [] ++ [Ev.capture, Ev.logCommit imm pn]) =
      (if pn = n then 1 else 0) ∧
    releases n ([Ev.poolAcquire pn, Ev.frameCreated, Ev.attachBuffer pn] ++
        List.map Ev.damageBuffer [] ++ [Ev.capture, Ev.logCommit imm pn])
      = 0 ∧
    deliveries n ([Ev.poolAcquire pn, Ev.frameCreated, Ev.attachBuffer pn] ++
        List.map Ev.damageBuffer [] ++ [Ev.capture, Ev.logCommit imm pn])
      = 0 := by
  by_cases h : pn = n <;>
    simp [acquires, releases, deliveries, isAcquireOf, isReleaseOf,
      isDeliveryOf, h]

/-- Scheduling a capture preserves the buffer-ledger invariant: the
freshly acquired buffer id moves into the in-flight slot, prefixed by
arbitrary non-ledger events (such as the pool resize). -/
theorem schedule_capture_inv (s : ExtFrame.St) (immediate : Bool)
    (evs extra : List Ev) (s₁ : ExtFrame.St) (evs₁ : List Ev)
    (hI : ExtFrame.Inv s evs)
    (h : ExtFrame.ext_screencopy_schedule_capture s immediate
      = some (s₁, evs₁))
    (hx1 : ∀ n, extra.countP (isAcquireOf n) = 0)
    (hx2 : ∀ n, extra.countP (isReleaseOf n) = 0)
    (hx3 : ∀ n, extra.countP (isDeliveryOf n) = 0)
    (hx4 : ∀ e ∈ extra, failedCarriesNoBuffer e = true) :
    ExtFrame.Inv s₁ (evs ++ (extra ++ evs₁)) := by
  simp only [ExtFrame.ext_screencopy_schedule_capture] at h
  split at h
  · exact absurd h (by simp)
  · split at h
    · exact absurd h (by simp)
    · rename_i hf hs
      simp only [Option.some.injEq, Prod.mk.injEq] at h
      obtain ⟨h1, h2⟩ := h
      subst h1
      subst h2
      have hfr : s.frame = false := by
        revert hf
        cases s.frame <;> simp
      have hbnone : s.buffer = none := by
        have hsy := hI.sync
        rw [hfr] at hsy
        cases hsb : s.buffer
        · rfl
        · rw [hsb] at hsy
          simp at hsy
      have hxa : ∀ n, acquires n extra = 0 := hx1
      have hxr : ∀ n, releases n extra = 0 := hx2
      have hxd : ∀ n, deliveries n extra = 0 := hx3
      refine ⟨?_, ?_, ?_, rfl, ?_⟩
      · intro n
        have hb := hI.balance n
        rw [hbnone] at hb
        simp only [slotCount] at hb
        rw [acquires_append, acquires_append, releases_append,
          releases_append, deliveries_append, deliveries_append,
          hxa n, hxr n, hxd n, (sched_evs_counts n s.pool_next immediate).1,
          (sched_evs_counts n s.pool_next immediate).2.1,
          (sched_evs_counts n s.pool_next immediate).2.2]
        simp only [slotCount]
        by_cases hn : s.pool_next = n
        · have h0 : acquires n evs = 0 := by
            rw [← hn]
            exact hI.fresh _ le_rfl
          simp [hn, h0, hb]
          omega
        · simp [hn, hb]
      · intro n hle
        have hle' : s.pool_next + 1 ≤ n := hle
        have h0 : acquires n evs = 0 := hI.fresh n (by omega)
        rw [acquires_append, acquires_append, hxa n, h0,
          (sched_evs_counts n s.pool_next immediate).1]
        have hne : ¬ s.pool_next = n := by omega
        simp [hne]
      · intro n
        rw [acquires_append, acquires_append, hxa n,
          (sched_evs_counts n s.pool_next immediate).1]
        by_cases hn : s.pool_next = n
        · have h0 : acquires n evs = 0 := by
            rw [← hn]
            exact hI.fresh _ le_rfl
          simp [hn, h0]
        · have ho := hI.once n
          simp [hn]
          omega
      · intro e he
        rcases List.mem_append.1 he with h | h
        · exact hI.failedNone e h
        · rcases List.mem_append.1 h with h | h
          · exact hx4 e h
          · revert h
            simp [failedCarriesNoBuffer]
            rintro (rfl | rfl | rfl | rfl | rfl) <;> rfl

/-- Ledger counts of the ready-handler event list: one delivery of the
buffer, no acquires, no releases. -/
theorem counts_ready_evs (n : Nat) (m : Nat) (d : BufferDomain)
    (b' : WvBuffer) :
    acquires n [Ev.frameDestroyed, Ev.registryDamageAll m d,
      Ev.onDone CopyResult.done (some b')] = 0 ∧
    releases n [Ev.frameDestroyed, Ev.registryDamageAll m d,
      Ev.onDone CopyResult.done (some b')] = 0 ∧
    deliveries n [Ev.frameDestroyed, Ev.registryDamageAll m d,
      Ev.onDone CopyResult.done (some b')] = (if b'.id = n then 1 else 0) := by
  by_cases h : b'.id = n <;>
    simp [acquires, releases, deliveries, isAcquireOf, isReleaseOf,
      isDeliveryOf, h]

/-- Ledger counts of the failed-handler prefix: one release of the
buffer, nothing else. -/
theorem counts_failed_release (n : Nat) (b : WvBuffer) :
    acquires n [Ev.frameDestroyed, Ev.poolRelease b] = 0 ∧
    releases n [Ev.frameDestroyed, Ev.poolRelease b]
      = (if b.id = n then 1 else 0) ∧
    deliveries n [Ev.frameDestroyed, Ev.poolRelease b] = 0 := by
  by_cases h : b.id = n <;>
    simp [acquires, releases, deliveries, isAcquireOf, isReleaseOf,
      isDeliveryOf, h]

/-- Ledger counts of the failed completion callback: nothing. -/
theorem counts_onDone_failed (n : Nat) :
    acquires n [Ev.onDone CopyResult.failed none] = 0 ∧
    releases n [Ev.onDone CopyResult.failed none] = 0 ∧
    deliveries n [Ev.onDone CopyResult.failed none] = 0 := by
  simp [acquires, releases, deliveries, isAcquireOf, isReleaseOf,
    isDeliveryOf]

/-- Ledger counts of the whole non-invalidating failed-handler event
list: one release of the buffer, nothing else. -/
theorem counts_failed_evs (n : Nat) (b : WvBuffer) :
    acquires n [Ev.frameDestroyed, Ev.poolRelease b,
      Ev.onDone CopyResult.failed none] = 0 ∧
    releases n [Ev.frameDestroyed, Ev.poolRelease b,
      Ev.onDone CopyResult.failed none] = (if b.id = n then 1 else 0) ∧
    deliveries n [Ev.frameDestroyed, Ev.poolRelease b,
      Ev.onDone CopyResult.failed none] = 0 := by
  by_cases h : b.id = n <;>
    simp [acquires, releases, deliveries, isAcquireOf, isReleaseOf,
      isDeliveryOf, h]

/-- The ready handler preserves the buffer-ledger invariant: the
in-flight buffer moves from the slot to a done-delivery. -/
theorem ready_inv (s s₁ : ExtFrame.St) (evs evs₁ : List Ev)
    (hI : ExtFrame.Inv s evs)
    (h : ExtFrame.frame_handle_ready s = some (s₁, evs₁)) :
    ExtFrame.Inv s₁ (evs ++ evs₁) := by
  simp only [ExtFrame.frame_handle_ready] at h
  split at h
  · exact absurd h (by simp)
  · cases hsb : s.buffer with
    | none =>
      rw [hsb] at h
      exact absurd h (by simp)
    | some b =>
      rw [hsb] at h
      simp only [Option.some.injEq, Prod.mk.injEq] at h
      obtain ⟨h1, h2⟩ := h
      subst h1
      subst h2
      refine ⟨?_, ?_, ?_, rfl, ?_⟩
      · intro n
        have hb := hI.balance n
        rw [hsb] at hb
        simp only [slotCount] at hb
        rw [acquires_append, releases_append, deliveries_append,
          (counts_ready_evs n b.id _ _).1, (counts_ready_evs n b.id _ _).2.1,
          (counts_ready_evs n b.id _ _).2.2]
        simp only [slotCount]
        by_cases hn : b.id = n
        · simp only [hn] at hb ⊢
          simp [hb]
          omega
        · simp [hn, hb]
      · intro n hle
        have hle' : s.pool_next ≤ n := hle
        rw [acquires_append, (counts_ready_evs n b.id _ _).1,
          hI.fresh n hle']
      · intro n
        rw [acquires_append, (counts_ready_evs n b.id _ _).1]
        have := hI.once n
        omega
      · intro e he
        rcases List.mem_append.1 he with h | h
        · exact hI.failedNone e h
        · revert h
          simp [failedCarriesNoBuffer]
          rintro (rfl | rfl | rfl) <;> rfl

/-- The failed handler preserves the buffer-ledger invariant: the
in-flight buffer moves from the slot to a pool release, the callback
carries no buffer, and the optional reinit touches no buffer. -/
theorem failed_inv (env : Env) (s s₁ : ExtFrame.St)
    (reason : ExtFrame.FailureReason) (evs evs₁ : List Ev)
    (hI : ExtFrame.Inv s evs)
    (h : ExtFrame.frame_handle_failed env s reason = some (s₁, evs₁)) :
    ExtFrame.Inv s₁ (evs ++ evs₁) := by
  simp only [ExtFrame.frame_handle_failed] at h
  split at h
  · exact absurd h (by simp)
  · cases hsb : s.buffer with
    | none =>
      rw [hsb] at h
      exact absurd h (by simp)
    | some b =>
      rw [hsb] at h
      dsimp only at h
      by_cases hr : reason = ExtFrame.FailureReason.bufferConstraints
      · rw [if_pos hr] at h
        simp only [Option.some.injEq, Prod.mk.injEq] at h
        obtain ⟨h1, h2⟩ := h
        subst h1
        subst h2
        obtain ⟨ia, ir, idl, ifn, ibuf, ipn, ifr⟩ :=
          init_session_events_spec env { s with frame := false, buffer := none }
        refine ⟨?_, ?_, ?_, ?_, ?_⟩
        · intro n
          have hb := hI.balance n
          rw [hsb] at hb
          simp only [slotCount] at hb
          rw [acquires_append, acquires_append, acquires_append,
            releases_append, releases_append, releases_append,
            deliveries_append, deliveries_append, deliveries_append,
            (counts_failed_release n b).1, (counts_failed_release n b).2.1,
            (counts_failed_release n b).2.2,
            (counts_onDone_failed n).1, (counts_onDone_failed n).2.1,
            (counts_onDone_failed n).2.2, ia n, ir n, idl n]
          rw [show slotCount n
            (ExtFrame.ext_screencopy_init_session env
              { s with frame := false, buffer := none }).2.1.buffer
            = slotCount n (none : Option WvBuffer) by rw [ibuf]]
          simp only [slotCount]
          by_cases hn : b.id = n
          · simp only [hn] at hb ⊢
            simp [hb]
            omega
          · simp [hn, hb]
        · intro n hle
          have hle' : s.pool_next ≤ n := by
            rw [ipn] at hle
            exact hle
          rw [acquires_append, acquires_append, acquires_append,
            (counts_failed_release n b).1, (counts_onDone_failed n).1,
            ia n, hI.fresh n hle']
        · intro n
          rw [acquires_append, acquires_append, acquires_append,
            (counts_failed_release n b).1, (counts_onDone_failed n).1,
            ia n]
          have := hI.once n
          omega
        · rw [ifr]
          rw [ibuf]
          rfl
        · intro e he
          rcases List.mem_append.1 he with h | h
          · exact hI.failedNone e h
          · rcases List.mem_append.1 h with h | h
            · rcases List.mem_append.1 h with h | h
              · revert h
                simp [failedCarriesNoBuffer]
                rintro (rfl | rfl) <;> rfl
              · exact ifn e h
            · revert h
              simp [failedCarriesNoBuffer]
              rintro rfl
              rfl
      · rw [if_neg hr] at h
        simp only [Option.some.injEq, Prod.mk.injEq] at h
        obtain ⟨h1, h2⟩ := h
        subst h1
        subst h2
        refine ⟨?_, ?_, ?_, rfl, ?_⟩
        · intro n
          have hb := hI.balance n
          rw [hsb] at hb
          simp only [slotCount] at hb
          rw [acquires_append, releases_append, deliveries_append,
            (counts_failed_evs n b).1, (counts_failed_evs n b).2.1,
            (counts_failed_evs n b).2.2]
          simp only [slotCount]
          by_cases hn : b.id = n
          · simp only [hn] at hb ⊢
            simp [hb]
            omega
          · simp [hn, hb]
        · intro n hle
          have hle' : s.pool_next ≤ n := hle
          rw [acquires_append, (counts_failed_evs n b).1,
            hI.fresh n hle']
        · intro n
          rw [acquires_append, (counts_failed_evs n b).1]
          have := hI.once n
          omega
        · intro e he
          rcases List.mem_append.1 he with h | h
          · exact hI.failedNone e h
          · revert h
            simp [failedCarriesNoBuffer]
            rintro (rfl | rfl | rfl) <;> rfl

/-- The damage handler preserves the buffer-ledger invariant: it only
extends the accumulated damage of the in-flight buffer. -/
theorem damage_inv (s s₁ : ExtFrame.St) (x y w h' : Int) (evs : List Ev)
    (hI : ExtFrame.Inv s evs)
    (hd : ExtFrame.frame_handle_damage s x y w h' = some s₁) :
    ExtFrame.Inv s₁ evs := by
  simp only [ExtFrame.frame_handle_damage] at hd
  cases hsb : s.buffer with
  | none =>
    rw [hsb] at hd
    exact absurd hd (by simp)
  | some b =>
    rw [hsb] at hd
    simp only [Option.some.injEq] at hd
    subst hd
    refine ⟨?_, hI.fresh, hI.once, ?_, hI.failedNone⟩
    · intro n
      have hb := hI.balance n
      rw [hsb] at hb
      simpa [slotCount] using hb
    · have hsy := hI.sync
      rw [hsb] at hsy
      simpa using hsy

/-- The transform handler preserves the buffer-ledger invariant: it
only stamps metadata onto the in-flight buffer. -/
theorem transform_inv (s s₁ : ExtFrame.St) (t : Nat) (evs : List Ev)
    (hI : ExtFrame.Inv s evs)
    (hd : ExtFrame.frame_handle_transform s t = some s₁) :
    ExtFrame.Inv s₁ evs := by
  simp only [ExtFrame.frame_handle_transform] at hd
  cases hsb : s.buffer with
  | none =>
    rw [hsb] at hd
    exact absurd hd (by simp)
  | some b =>
    rw [hsb] at hd
    simp only [Option.some.injEq] at hd
    subst hd
    refine ⟨?_, hI.fresh, hI.once, ?_, hI.failedNone⟩
    · intro n
      have hb := hI.balance n
      rw [hsb] at hb
      simpa [slotCount] using hb
    · have hsy := hI.sync
      rw [hsb] at hsy
      simpa using hsy

/-- Ledger counts of a pool resize: nothing. -/
theorem counts_resize (n : Nat) (t : BufferType) (w h stride fmt : Nat) :
    acquires n [Ev.poolResize t w h stride fmt] = 0 ∧
    releases n [Ev.poolResize t w h stride fmt] = 0 ∧
    deliveries n [Ev.poolResize t w h stride fmt] = 0 ∧
    ∀ e ∈ [Ev.poolResize t w h stride fmt],
      failedCarriesNoBuffer e = true := by
  simp [acquires, releases, deliveries, isAcquireOf, isReleaseOf,
    isDeliveryOf, failedCarriesNoBuffer]

/-- The constraints-done handler preserves the buffer-ledger
invariant, whether or not a deferred capture is issued. -/
theorem constraints_done_inv (s s₁ : ExtFrame.St) (evs evs₁ : List Ev)
    (hI : ExtFrame.Inv s evs)
    (h : ExtFrame.session_handle_constraints_done s = some (s₁, evs₁)) :
    ExtFrame.Inv s₁ (evs ++ evs₁) := by
  simp only [ExtFrame.session_handle_constraints_done] at h
  split at h
  · split at h
    · exact absurd h (by simp)
    · rename_i s₂ evs₂ hsched
      simp only [Option.some.injEq, Prod.mk.injEq] at h
      obtain ⟨h1, h2⟩ := h
      subst h1
      subst h2
      have hs := schedule_capture_inv s s.shall_be_immediate evs
        [Ev.poolResize
          (if s.have_linux_dmabuf && s.enable_linux_dmabuf then
            (BufferType.dmabuf, 0, s.dmabuf_format)
          else (BufferType.shm, s.wl_shm_stride, s.wl_shm_format)).1
          s.width s.height
          (if s.have_linux_dmabuf && s.enable_linux_dmabuf then
            (BufferType.dmabuf, 0, s.dmabuf_format)
          else (BufferType.shm, s.wl_shm_stride, s.wl_shm_format)).2.1
          (if s.have_linux_dmabuf && s.enable_linux_dmabuf then
            (BufferType.dmabuf, 0, s.dmabuf_format)
          else (BufferType.shm, s.wl_shm_stride, s.wl_shm_format)).2.2]
        s₂ evs₂ hI hsched
        (fun n => (counts_resize n _ _ _ _ _).1)
        (fun n => (counts_resize n _ _ _ _ _).2.1)
        (fun n => (counts_resize n _ _ _ _ _).2.2.1)
        (counts_resize 0 _ _ _ _ _).2.2.2
      exact ⟨hs.balance, hs.fresh, hs.once, hs.sync, hs.failedNone⟩
  · simp only [Option.some.injEq, Prod.mk.injEq] at h
    obtain ⟨h1, h2⟩ := h
    subst h1
    subst h2
    refine ⟨?_, ?_, ?_, hI.sync, ?_⟩
    · intro n
      rw [acquires_append, releases_append, deliveries_append,
        (counts_resize n _ _ _ _ _).1, (counts_resize n _ _ _ _ _).2.1,
        (counts_resize n _ _ _ _ _).2.2.1]
      simpa using hI.balance n
    · intro n hle
      have hle' : s.pool_next ≤ n := hle
      rw [acquires_append, (counts_resize n _ _ _ _ _).1,
        hI.fresh n hle']
    · intro n
      rw [acquires_append, (counts_resize n _ _ _ _ _).1]
      have := hI.once n
      omega
    · intro e he
      rcases List.mem_append.1 he with h' | h'
      · exact hI.failedNone e h'
      · exact (counts_resize 0 _ _ _ _ _).2.2.2 e h'

/-- The start entry point preserves the buffer-ledger invariant. -/
theorem start_inv (s s₁ : ExtFrame.St) (immediate : Bool)
    (evs evs₁ : List Ev) (r : Int) (hI : ExtFrame.Inv s evs)
    (h : ExtFrame.ext_screencopy_start s immediate = some (r, s₁, evs₁)) :
    ExtFrame.Inv s₁ (evs ++ evs₁) := by
  simp only [ExtFrame.ext_screencopy_start] at h
  split at h
  · simp only [Option.some.injEq, Prod.mk.injEq] at h
    obtain ⟨-, h1, h2⟩ := h
    subst h1
    subst h2
    rw [List.append_nil]
    exact ⟨hI.balance, hI.fresh, hI.once, hI.sync, hI.failedNone⟩
  · split at h
    · exact absurd h (by simp)
    · rename_i s₂ evs₂ hsched
      simp only [Option.some.injEq, Prod.mk.injEq] at h
      obtain ⟨-, h1, h2⟩ := h
      subst h1
      subst h2
      have hs := schedule_capture_inv s immediate evs [] s₂ evs₂ hI hsched
        (fun n => rfl) (fun n => rfl) (fun n => rfl) (by simp)
      exact ⟨hs.balance, hs.fresh, hs.once, hs.sync, hs.failedNone⟩

/-- Every accepted step preserves the buffer-ledger invariant. -/
theorem step_inv (env : Env) (s : ExtFrame.St) (a : ExtFrame.Act)
    (s₁ : ExtFrame.St) (evs evs₁ : List Ev) (hI : ExtFrame.Inv s evs)
    (h : ExtFrame.step env s a = some (s₁, evs₁)) :
    ExtFrame.Inv s₁ (evs ++ evs₁) := by
  cases a with
  | start imm =>
    simp only [ExtFrame.step] at h
    split at h
    · exact absurd h (by simp)
    · rename_i r s₂ evs₂ heq
      simp only [Option.some.injEq, Prod.mk.injEq] at h
      obtain ⟨h1, h2⟩ := h
      subst h1
      subst h2
      exact start_inv s _ imm evs _ r hI heq
  | shmFormat f =>
    simp only [ExtFrame.step, Option.some.injEq, Prod.mk.injEq] at h
    obtain ⟨h1, h2⟩ := h
    subst h1
    subst h2
    rw [List.append_nil]
    exact ⟨hI.balance, hI.fresh, hI.once, hI.sync, hI.failedNone⟩
  | dmabufFormat f =>
    simp only [ExtFrame.step, Option.some.injEq, Prod.mk.injEq] at h
    obtain ⟨h1, h2⟩ := h
    subst h1
    subst h2
    rw [List.append_nil]
    exact ⟨hI.balance, hI.fresh, hI.once, hI.sync, hI.failedNone⟩
  | bufferSize w hh =>
    simp only [ExtFrame.step, Option.some.injEq, Prod.mk.injEq] at h
    obtain ⟨h1, h2⟩ := h
    subst h1
    subst h2
    rw [List.append_nil]
    exact ⟨hI.balance, hI.fresh, hI.once, hI.sync, hI.failedNone⟩
  | constraintsDone =>
    exact constraints_done_inv s s₁ evs evs₁ hI h
  | frameDamage x y w hh =>
    simp only [ExtFrame.step] at h
    split at h
    · exact absurd h (by simp)
    · rename_i s₂ heq
      simp only [Option.some.injEq, Prod.mk.injEq] at h
      obtain ⟨h1, h2⟩ := h
      subst h1
      subst h2
      rw [List.append_nil]
      exact damage_inv s _ x y w hh evs hI heq
  | frameTransform t =>
    simp only [ExtFrame.step] at h
    split at h
    · exact absurd h (by simp)
    · rename_i s₂ heq
      simp only [Option.some.injEq, Prod.mk.injEq] at h
      obtain ⟨h1, h2⟩ := h
      subst h1
      subst h2
      rw [List.append_nil]
      exact transform_inv s _ t evs hI heq
  | frameReady =>
    simp only [ExtFrame.step] at h
    exact ready_inv s s₁ evs evs₁ hI h
  | frameFailed r =>
    simp only [ExtFrame.step] at h
    exact failed_inv env s s₁ r evs evs₁ hI h

/-- The buffer-ledger invariant holds after any accepted run. -/
theorem run_inv (env : Env) : ∀ (acts : List ExtFrame.Act)
    (s : ExtFrame.St) (evs₀ : List Ev), ExtFrame.Inv s evs₀ →
    ∀ (s₁ : ExtFrame.St) (evs : List Ev),
      ExtFrame.run env s acts = some (s₁, evs) →
      ExtFrame.Inv s₁ (evs₀ ++ evs) := by
  intro acts
  induction acts with
  | nil =>
    intro s evs₀ hI s₁ evs h
    simp only [ExtFrame.run, Option.some.injEq, Prod.mk.injEq] at h
    obtain ⟨h1, h2⟩ := h
    subst h1
    subst h2
    rw [List.append_nil]
    exact hI
  | cons a rest ih =>
    intro s evs₀ hI s₁ evs h
    simp only [ExtFrame.run] at h
    split at h
    · exact absurd h (by simp)
    · rename_i s₂ evs₂ heq
      split at h
      · exact absurd h (by simp)
      · rename_i s₃ evs₃ heq₂
        simp only [Option.some.injEq, Prod.mk.injEq] at h
        obtain ⟨h1, h2⟩ := h
        subst h1
        subst h2
        have hstep := step_inv env s a s₂ evs₀ evs₂ hI heq
        have hrest := ih s₂ (evs₀ ++ evs₂) hstep s₃ evs₃ heq₂
        rw [← List.append_assoc]
        exact hrest

/-- The invariant holds at creation: no events, no buffer. -/
theorem inv_init : ExtFrame.Inv ExtFrame.initState [] := by
  refine ⟨?_, ?_, ?_, rfl, ?_⟩ <;>
    simp [acquires, releases, deliveries, slotCount, ExtFrame.initState]

/-- Ledger counts of the destroy event list: it releases exactly the
buffer occupying the in-flight slot, and nothing else. -/
theorem destroy_counts (s : ExtFrame.St) :
    (∀ n, acquires n (ExtFrame.ext_screencopy_destroy s) = 0) ∧
    (∀ n, deliveries n (ExtFrame.ext_screencopy_destroy s) = 0) ∧
    (∀ n, releases n (ExtFrame.ext_screencopy_destroy s)
      = slotCount n s.buffer) ∧
    (∀ e ∈ ExtFrame.ext_screencopy_destroy s,
      failedCarriesNoBuffer e = true) := by
  unfold ExtFrame.ext_screencopy_destroy
  refine ⟨?_, ?_, ?_, ?_⟩
  · intro n
    by_cases h1 : s.frame = true <;> by_cases h2 : s.session = true <;>
      cases hsb : s.buffer <;>
        simp [h1, h2, acquires, isAcquireOf]
  · intro n
    by_cases h1 : s.frame = true <;> by_cases h2 : s.session = true <;>
      cases hsb : s.buffer <;>
        simp [h1, h2, deliveries, isDeliveryOf]
  · intro n
    by_cases h1 : s.frame = true <;> by_cases h2 : s.session = true <;>
      cases hsb : s.buffer <;>
        first
          | (simp [h1, h2, releases, isReleaseOf, slotCount]
             done)
          | (rename_i b
             by_cases hn : b.id = n <;>
               simp [h1, h2, hn, releases, isReleaseOf, slotCount])
  · intro e
    by_cases h1 : s.frame = true <;> by_cases h2 : s.session = true <;>
      cases hsb : s.buffer <;>
        (intro he
         revert he
         simp [h1, h2, failedCarriesNoBuffer]
         try (rintro (rfl | rfl | rfl) <;> rfl))

/-- C1: along any sequence of caller calls and protocol events that the
frame dialect accepts without tripping an assertion, followed by
destroy, every buffer id acquired from the pool is disposed of exactly
once — released back to the pool or delivered to the completion
callback with result done, never both and never neither — and failed
callbacks never carry a buffer. -/
theorem c1_buffer_disposed_exactly_once (env : Env)
    (acts : List ExtFrame.Act) (s : ExtFrame.St) (evs : List Ev)
    (h : ExtFrame.run env ExtFrame.initState acts = some (s, evs)) :
    (∀ n, acquires n (evs ++ ExtFrame.ext_screencopy_destroy s) =
      releases n (evs ++ ExtFrame.ext_screencopy_destroy s) +
      deliveries n (evs ++ ExtFrame.ext_screencopy_destroy s)) ∧
    (∀ n, acquires n (evs ++ ExtFrame.ext_screencopy_destroy s) ≤ 1) ∧
    (∀ e ∈ evs ++ ExtFrame.ext_screencopy_destroy s,
      failedCarriesNoBuffer e = true) := by
  have hI := run_inv env acts ExtFrame.initState [] inv_init s evs h
  rw [List.nil_append] at hI
  obtain ⟨da, dd, dr, dfn⟩ := destroy_counts s
  refine ⟨?_, ?_, ?_⟩
  · intro n
    rw [acquires_append, releases_append, deliveries_append, da n, dd n,
      dr n]
    have := hI.balance n
    omega
  · intro n
    rw [acquires_append, da n]
    have := hI.once n
    omega
  · intro e he
    rcases List.mem_append.1 he with h' | h'
    · exact hI.failedNone e h'
    · exact dfn e h'

/-- Witness for C1 at a concrete accepted run (a deferred start). -/
theorem c1_buffer_disposed_exactly_once_witness :
    ExtFrame.run envAllOk ExtFrame.initState [ExtFrame.Act.start true] =
      some ({ ExtFrame.initState with
        should_start := true, shall_be_immediate := true }, []) ∧
    ((∀ n, acquires n ([] ++ ExtFrame.ext_screencopy_destroy
        { ExtFrame.initState with
          should_start := true, shall_be_immediate := true }) =
      releases n ([] ++ ExtFrame.ext_screencopy_destroy
        { ExtFrame.initState with
          should_start := true, shall_be_immediate := true }) +
      deliveries n ([] ++ ExtFrame.ext_screencopy_destroy
        { ExtFrame.initState with
          should_start := true, shall_be_immediate := true })) ∧
    (∀ n, acquires n ([] ++ ExtFrame.ext_screencopy_destroy
        { ExtFrame.initState with
          should_start := true, shall_be_immediate := true }) ≤ 1) ∧
    (∀ e ∈ [] ++ ExtFrame.ext_screencopy_destroy
        { ExtFrame.initState with
          should_start := true, shall_be_immediate := true },
      failedCarriesNoBuffer e = true)) :=
  ⟨rfl, c1_buffer_disposed_exactly_once envAllOk [ExtFrame.Act.start true]
    { ExtFrame.initState with
      should_start := true, shall_be_immediate := true } [] rfl⟩
